import Mathlib

/-!
Verification of the `ofxstatement-iso20022` plugin
(`src/ofxstatement/plugins/iso20022.py`).

The Python module translates an ISO-20022 camt.053 XML bank statement into a
`Statement` record.  We give a shallow embedding: the XML tree is an explicit
inductive (tags are modelled after namespace resolution, i.e. the uniform
`s:`-prefixing performed by `_toxpath` together with the `{"s": ns}` namespace
map is dropped), fallible Python code becomes `Except PyErr`, Python `str`
values are Lean `String`s (manipulated through their character lists), Python
`float` amounts are modelled as exact rationals (only finite decimal literals
occur; sign and zero-ness agree with the float semantics the claims use), and
`datetime.datetime` values are records of their six components.

Each Python failure mode is a distinct `PyErr` constructor:
* `parseError msg` — `ofxstatement.exceptions.ParseError(0, msg)`;
* `attributeError` — `AttributeError` from accessing `.text` / `.get` / `.find`
  on `None` (an absent element);
* `typeError` — `TypeError` from `float(None)` or `"+" in None` (absent text);
* `valueError` — `ValueError` from `float()`, `strptime` or tuple unpacking;
* `keyError k` — `KeyError(k)` from a dict subscript;
* `assertionError` — a failed `assert`.
-/

inductive PyErr : Type where
  | parseError (msg : String)
  | attributeError
  | typeError
  | valueError
  | keyError (key : String)
  | assertionError
  deriving DecidableEq, Repr

deriving instance DecidableEq for Except

/-- Message of the `ParseError` raised when neither the document nor the
configuration provides a currency (the spec's `ConfigError`). -/
def noCurrencyMsg : String :=
  "No account currency provided in statement. Please specify one in configuration file (e.g. currency=EUR)"

/-- Python renders `None` as `"None"` under `'%s' %`. -/
def pyStrOfOpt : Option String → String
  | none => "None"
  | some s => s

/-- Message of the `ParseError` raised when no balance survives the currency
filter (the spec's `ReconciliationError`), `"No statement balance found for
currency '%s'. Check currency of statement file." % currency`. -/
def noBalanceMsg (ccy : Option String) : String :=
  "No statement balance found for currency '" ++ pyStrOfOpt ccy ++
    "'. Check currency of statement file."

/-- Modelled from the spec (section 7): `FormatError` is the spec's name for
all structural/format failures of the code — an absent required element
(`AttributeError`), an unparseable literal (`ValueError` from `float`/`strptime`
or `TypeError` from an absent text), and the failed `assert` in `_parse_date`.
The two dedicated `ParseError` sites (`ConfigError`, `ReconciliationError`) and
dict `KeyError`s are not format errors. -/
def specIsFormatError : PyErr → Bool
  | .attributeError => true
  | .typeError => true
  | .valueError => true
  | .assertionError => true
  | .parseError _ => false
  | .keyError _ => false

/-! ## Python `str.split` on a single-character separator

`_notimezone` does `dt.split("+")`; we model Python's split on the character
list of the string. -/

/-- Python `s.split(sep)` for a one-character separator `sep`:
splitting `[]` gives `[[]]`, and each occurrence of `sep` starts a new chunk. -/
def splitCh (sep : Char) : List Char → List (List Char)
  | [] => [[]]
  | c :: cs =>
    if c = sep then [] :: splitCh sep cs
    else
      match splitCh sep cs with
      | [] => [[c]]
      | h :: t => (c :: h) :: t

/-! ## `_notimezone` -/

/-- `Iso20022Parser._notimezone`:

```python
if "+" not in dt:
    return dt
dt, tz = dt.split("+")
return dt
```

The two-element unpacking raises `ValueError` when `split` does not yield
exactly two parts. -/
def unpack2 (parts : List (List Char)) : Except PyErr String :=
  match parts with
  | [d, _tz] => .ok (String.mk d)
  | _ => .error .valueError

def pyNotimezone (dt : String) : Except PyErr String :=
  if '+' ∈ dt.toList then unpack2 (splitCh '+' dt.toList)
  else .ok dt

/-! ## `strptime`

`datetime.datetime.strptime` compiles its format into a regular expression
(CPython `_strptime`): `%Y ↦ \d\d\d\d`, `%m ↦ 1[0-2]|0[1-9]|[1-9]`,
`%d ↦ 3[01]|[12]\d|0[1-9]|[1-9]`, `%H ↦ 2[0-3]|[0-1]\d|\d`,
`%M, %S ↦ [0-5]\d|\d`, and literal separators.  A `ValueError` is raised when
the text does not fully match, and also by the `datetime` constructor when the
day is out of range for the month (or the year is 0).  Because none of the
digit classes can contain the separator characters `-`, `T`, `:`, a full match
is exactly a split on the separators whose parts fully match the classes. -/

def digitsToNat (l : List Char) : Nat :=
  l.foldl (fun acc c => 10 * acc + (c.toNat - 48)) 0

def allDigits (l : List Char) : Bool := l.all Char.isDigit

/-- `%Y`: exactly four digits. -/
def isYear4 (l : List Char) : Bool := l.length == 4 && allDigits l

/-- Full matches of the month class `1[0-2]|0[1-9]|[1-9]`. -/
def monthVal : List Char → Option Nat
  | [a] => if '1' ≤ a ∧ a ≤ '9' then some (a.toNat - 48) else none
  | [a, b] =>
    if a = '1' ∧ ('0' ≤ b ∧ b ≤ '2') then some (10 + (b.toNat - 48))
    else if a = '0' ∧ ('1' ≤ b ∧ b ≤ '9') then some (b.toNat - 48)
    else none
  | _ => none

/-- Full matches of the day class `3[01]|[12]\d|0[1-9]|[1-9]`. -/
def dayVal : List Char → Option Nat
  | [a] => if '1' ≤ a ∧ a ≤ '9' then some (a.toNat - 48) else none
  | [a, b] =>
    if a = '3' ∧ ('0' ≤ b ∧ b ≤ '1') then some (30 + (b.toNat - 48))
    else if ('1' ≤ a ∧ a ≤ '2') ∧ b.isDigit then some (10 * (a.toNat - 48) + (b.toNat - 48))
    else if a = '0' ∧ ('1' ≤ b ∧ b ≤ '9') then some (b.toNat - 48)
    else none
  | _ => none

/-- Full matches of the hour class `2[0-3]|[0-1]\d|\d`. -/
def hourVal : List Char → Option Nat
  | [a] => if a.isDigit then some (a.toNat - 48) else none
  | [a, b] =>
    if a = '2' ∧ ('0' ≤ b ∧ b ≤ '3') then some (20 + (b.toNat - 48))
    else if ('0' ≤ a ∧ a ≤ '1') ∧ b.isDigit then some (10 * (a.toNat - 48) + (b.toNat - 48))
    else none
  | _ => none

/-- Full matches of the minute/second class `[0-5]\d|\d`. -/
def minSecVal : List Char → Option Nat
  | [a] => if a.isDigit then some (a.toNat - 48) else none
  | [a, b] =>
    if ('0' ≤ a ∧ a ≤ '5') ∧ b.isDigit then some (10 * (a.toNat - 48) + (b.toNat - 48))
    else none
  | _ => none

/-- A `datetime.datetime` value by its components (date-only parses get a zero
time, as `strptime` defaults do for these formats). -/
structure PyDateTime where
  year : Nat
  month : Nat
  day : Nat
  hour : Nat
  minute : Nat
  second : Nat
  deriving DecidableEq, Repr

def isLeapYear (y : Nat) : Bool :=
  y % 4 == 0 && (y % 100 != 0 || y % 400 == 0)

def daysInMonth (y m : Nat) : Nat :=
  if m = 2 then (if isLeapYear y then 29 else 28)
  else if m = 4 ∨ m = 6 ∨ m = 9 ∨ m = 11 then 30
  else 31

/-- The date part common to both formats: class matches plus the
`datetime.datetime` constructor's range validation. -/
def mkDate (y m d : List Char) : Except PyErr (Nat × Nat × Nat) :=
  if isYear4 y then
    match monthVal m, dayVal d with
    | some mv, some dv =>
      if 1 ≤ digitsToNat y ∧ dv ≤ daysInMonth (digitsToNat y) mv then
        .ok (digitsToNat y, mv, dv)
      else .error .valueError
    | _, _ => .error .valueError
  else .error .valueError

/-- `datetime.datetime.strptime(s, "%Y-%m-%d")`. -/
def strptimeDate (s : String) : Except PyErr PyDateTime :=
  match splitCh '-' s.toList with
  | [y, m, d] =>
    match mkDate y m d with
    | .error e => .error e
    | .ok (yv, mv, dv) => .ok ⟨yv, mv, dv, 0, 0, 0⟩
  | _ => .error .valueError

/-- `datetime.datetime.strptime(s, "%Y-%m-%dT%H:%M:%S")`. -/
def strptimeDateTime (s : String) : Except PyErr PyDateTime :=
  match splitCh 'T' s.toList with
  | [dpart, tpart] =>
    match splitCh '-' dpart, splitCh ':' tpart with
    | [y, m, d], [h, mi, se] =>
      match mkDate y m d, hourVal h, minSecVal mi, minSecVal se with
      | .ok (yv, mv, dv), some hv, some miv, some sev => .ok ⟨yv, mv, dv, hv, miv, sev⟩
      | _, _, _, _ => .error .valueError
    | _, _ => .error .valueError
  | _ => .error .valueError

/-! ## The XML tree and `ElementTree` lookup

Tags are modelled after namespace resolution: the code uniformly turns a
shorthand path `a/b` into `./s:a/s:b` (`_toxpath`) and resolves `s:` to the
document namespace, so the qualification is a bijective renaming and is
dropped here. -/

inductive XmlNode : Type where
  | node (tag : String) (attrs : List (String × String)) (text : Option String)
      (children : List XmlNode) : XmlNode

def XmlNode.tag : XmlNode → String
  | .node t _ _ _ => t

def XmlNode.attrs : XmlNode → List (String × String)
  | .node _ a _ _ => a

def XmlNode.text : XmlNode → Option String
  | .node _ _ tx _ => tx

def XmlNode.children : XmlNode → List XmlNode
  | .node _ _ _ c => c

/-- `ElementTree.findall` on a relative path `./t1/t2/…`: the matches of the
remaining path under each child with tag `t1`, in document order. -/
def findallPath : List String → XmlNode → List XmlNode
  | [], n => [n]
  | t :: ts, n => ((n.children.filter (fun c => c.tag == t)).map (findallPath ts)).flatten

/-- `ElementTree.find`: the first `findall` match, or `None`. -/
def findPath (p : List String) (n : XmlNode) : Option XmlNode := (findallPath p n).head?

/-- `elem.get(key)`: attribute lookup. -/
def getAttr (n : XmlNode) (key : String) : Option String := n.attrs.lookup key

/-! ## `float` and `_parse_amount`

Python `float(text)` on the decimal literals occurring in statements: optional
surrounding whitespace, optional sign, digits with an optional fractional part,
optional exponent.  (The `inf`/`nan` spellings and digit-group underscores
accepted by Python do not occur in amounts and are not modelled.)  The value is
kept as an exact rational; sign, zero-ness and equality of the short decimal
literals used here agree with the binary-float semantics. -/

def parseExpPart (cs : List Char) : Except PyErr Int :=
  match cs with
  | '+' :: r =>
    if r ≠ [] ∧ allDigits r = true then .ok (digitsToNat r : Int) else .error .valueError
  | '-' :: r =>
    if r ≠ [] ∧ allDigits r = true then .ok (-(digitsToNat r : Int)) else .error .valueError
  | r =>
    if r ≠ [] ∧ allDigits r = true then .ok (digitsToNat r : Int) else .error .valueError

/-- `q * 10^e` for an integer exponent, kept in `mkRat` form. -/
def timesPow10 (q : Rat) (e : Int) : Rat :=
  if 0 ≤ e then q * mkRat ((10 : Nat) ^ e.toNat : Nat) 1
  else q * mkRat 1 ((10 : Nat) ^ (-e).toNat)

def pyFloatMag (cs : List Char) : Except PyErr Rat :=
  let ip := cs.takeWhile Char.isDigit
  let r1 := cs.dropWhile Char.isDigit
  let fp := match r1 with
    | '.' :: r => r.takeWhile Char.isDigit
    | _ => []
  let r2 := match r1 with
    | '.' :: r => r.dropWhile Char.isDigit
    | _ => r1
  if ip = [] ∧ fp = [] then .error .valueError
  else
    let den : Nat := (10 : Nat) ^ fp.length
    let mant : Rat := mkRat (digitsToNat ip * den + digitsToNat fp : Nat) den
    match r2 with
    | [] => .ok mant
    | 'e' :: r => (parseExpPart r).map (fun e => timesPow10 mant e)
    | 'E' :: r => (parseExpPart r).map (fun e => timesPow10 mant e)
    | _ => .error .valueError

def pyFloat (s : String) : Except PyErr Rat :=
  match ((s.toList.dropWhile Char.isWhitespace).reverse.dropWhile Char.isWhitespace).reverse with
  | '+' :: r => pyFloatMag r
  | '-' :: r => (pyFloatMag r).map (fun q => -q)
  | r => pyFloatMag r

/-- `Iso20022Parser._parse_amount`: `float(amtnode.text)`; `float(None)` raises
`TypeError`. -/
def pyParseAmount (amtnode : XmlNode) : Except PyErr Rat :=
  match amtnode.text with
  | none => .error .typeError
  | some t => pyFloat t

/-! ## `_parse_date` -/

/-- `self._notimezone(node.text)`: `"+" in None` raises `TypeError`. -/
def pyTextNotimezone (t : Option String) : Except PyErr String :=
  match t with
  | none => .error .typeError
  | some s => pyNotimezone s

/-- The date-only branch of `_parse_date`: strip the timezone, then
`strptime(value, "%Y-%m-%d")`. -/
def dateChainD (t : Option String) : Except PyErr PyDateTime :=
  match pyTextNotimezone t with
  | .error e => .error e
  | .ok v => strptimeDate v

/-- The date-time branch of `_parse_date`: strip the timezone, then
`strptime(value, "%Y-%m-%dT%H:%M:%S")`. -/
def dateChainT (t : Option String) : Except PyErr PyDateTime :=
  match pyTextNotimezone t with
  | .error e => .error e
  | .ok v => strptimeDateTime v

/-- `Iso20022Parser._parse_date`: `None` for an absent node; prefer the `Dt`
child, else require the `DtTm` child (`assert dttm is not None`). -/
def pyParseDate (dtnode : Option XmlNode) : Except PyErr (Option PyDateTime) :=
  match dtnode with
  | none => .ok none
  | some n =>
    match findPath ["Dt"] n with
    | some dt =>
      match dateChainD dt.text with
      | .error e => .error e
      | .ok v => .ok (some v)
    | none =>
      match findPath ["DtTm"] n with
      | none => .error .assertionError
      | some dttm =>
        match dateChainT dttm.text with
        | .error e => .error e
        | .ok v => .ok (some v)

/-! ## The statement records (`ofxstatement.statement`) -/

structure Statement where
  currency : Option String
  bank_id : Option String
  account_id : Option String
  start_balance : Rat
  start_date : Option PyDateTime
  end_balance : Rat
  end_date : Option PyDateTime
  deriving DecidableEq, Repr

structure StatementLine where
  payee : Option String
  amount : Rat
  date : Option PyDateTime
  date_user : Option PyDateTime
  refnum : Option String
  memo : Option String
  deriving DecidableEq, Repr

/-! ## Python dicts keyed by `cd.text` (a `str` or `None`) -/

/-- `d[k] = v`: replace in place or append. -/
def dictSet {α : Type} (d : List (Option String × α)) (k : Option String) (v : α) :
    List (Option String × α) :=
  match d with
  | [] => [(k, v)]
  | (k', v') :: t => if k' = k then (k, v) :: t else (k', v') :: dictSet t k v

/-- `d[k]` for a string literal key: `KeyError` when absent. -/
def dictGet {α : Type} (d : List (Option String × α)) (k : String) : Except PyErr α :=
  match d.lookup (some k) with
  | some v => .ok v
  | none => .error (.keyError k)

/-! ## `_parse_statement_properties` -/

/-- Python truthiness of `acctCurrency` (a `str` or `None`). -/
def pyTruthy : Option String → Bool
  | none => false
  | some s => s != ""

/-- The currency-resolution step of `_parse_statement_properties`:

```python
if acctCurrency:
    self.statement.currency = acctCurrency
else:
    if self.statement.currency is None:
        raise exceptions.ParseError(0, "No account currency provided ...")
```

`cur0` is `self.statement.currency` on entry, i.e. the caller-supplied
default. -/
def resolveCurrency (acctCurrency cur0 : Option String) : Except PyErr (Option String) :=
  if pyTruthy acctCurrency then .ok acctCurrency
  else if cur0 = none then .error (.parseError noCurrencyMsg)
  else .ok cur0

/-- The `for bal in bals` loop filling `bal_amts` and `bal_dates`.  Failure
points in source order: `amt.get('Ccy')` on an absent `Amt` node
(`AttributeError`), `float` on the amount text, `cd.text` on an absent code
node (`AttributeError`, evaluated after the assignment's right-hand side), and
`_parse_date` on the `Dt` node. -/
def processBals (cur : Option String) :
    List XmlNode → List (Option String × Rat) → List (Option String × Option PyDateTime) →
    Except PyErr (List (Option String × Rat) × List (Option String × Option PyDateTime))
  | [], amts, dates => .ok (amts, dates)
  | bal :: rest, amts, dates =>
    match findPath ["Amt"] bal with
    | none => .error .attributeError
    | some amtN =>
      if getAttr amtN "Ccy" ≠ cur then processBals cur rest amts dates
      else
        match pyParseAmount amtN with
        | .error e => .error e
        | .ok a =>
          match findPath ["Tp", "CdOrPrtry", "Cd"] bal with
          | none => .error .attributeError
          | some cdN =>
            match pyParseDate (findPath ["Dt"] bal) with
            | .error e => .error e
            | .ok d => processBals cur rest (dictSet amts cdN.text a) (dictSet dates cdN.text d)

/-- `Iso20022Parser._parse_statement_properties`, with `cur0` the statement
currency on entry (the caller-supplied default from `parse`). -/
def parseStatementProperties (tree : XmlNode) (cur0 : Option String) :
    Except PyErr Statement :=
  match findPath ["BkToCstmrStmt", "Stmt"] tree with
  | none => .error .attributeError
  | some stmt =>
    let bnk : Option XmlNode :=
      match findPath ["Acct", "Svcr", "FinInstnId", "BIC"] stmt with
      | some b => some b
      | none => findPath ["Acct", "Svcr", "FinInstnId", "Nm"] stmt
    match resolveCurrency ((findPath ["Acct", "Ccy"] stmt).bind XmlNode.text) cur0 with
    | .error e => .error e
    | .ok cur =>
      match processBals cur (findallPath ["Bal"] stmt) [] [] with
      | .error e => .error e
      | .ok (balAmts, balDates) =>
        if balAmts = [] then .error (.parseError (noBalanceMsg cur))
        else
          match findPath ["Acct", "Id", "IBAN"] stmt with
          | none => .error .attributeError
          | some iban =>
            match dictGet balAmts "OPBD" with
            | .error e => .error e
            | .ok sb =>
              match dictGet balDates "OPBD" with
              | .error e => .error e
              | .ok sd =>
                match dictGet balAmts "CLBD" with
                | .error e => .error e
                | .ok eb =>
                  match dictGet balDates "CLBD" with
                  | .error e => .error e
                  | .ok ed =>
                    .ok { currency := cur, bank_id := bnk.bind XmlNode.text,
                          account_id := iban.text, start_balance := sb,
                          start_date := sd, end_balance := eb, end_date := ed }

/-! ## `_parse_line` and `_parse_lines` -/

def cdtrNmPath : List String := ["NtryDtls", "TxDtls", "RltdPties", "Cdtr", "Nm"]

def dbtrNmPath : List String := ["NtryDtls", "TxDtls", "RltdPties", "Dbtr", "Nm"]

def txRefPath : List String := ["NtryDtls", "TxDtls", "Refs", "AcctSvcrRef"]

/-- `Iso20022Parser._parse_line` for one `Ntry` node; `.ok none` is the
`return None` that skips a cross-currency entry. -/
def parseLine (cur : Option String) (ntry : XmlNode) : Except PyErr (Option StatementLine) :=
  match findPath ["CdtDbtInd"] ntry with
  | none => .error .attributeError
  | some crdebN =>
    match findPath ["Amt"] ntry with
    | none => .error .attributeError
    | some amtnode =>
      if getAttr amtnode "Ccy" ≠ cur then .ok none
      else
        match pyParseAmount amtnode with
        | .error e => .error e
        | .ok amt0 =>
          let amt : Rat := if crdebN.text = some "DBIT" then -amt0 else amt0
          let payeeN : Option XmlNode :=
            if crdebN.text = some "DBIT" then findPath cdtrNmPath ntry
            else findPath dbtrNmPath ntry
          match pyParseDate (findPath ["ValDt"] ntry) with
          | .error e => .error e
          | .ok date =>
            match pyParseDate (findPath ["BookgDt"] ntry) with
            | .error e => .error e
            | .ok dateUser =>
              match (match findPath txRefPath ntry with
                     | some r => some r
                     | none => findPath ["AcctSvcrRef"] ntry) with
              | none => .error .attributeError
              | some svcref =>
                .ok (some { payee := payeeN.bind XmlNode.text, amount := amt,
                            date := date, date_user := dateUser,
                            refnum := svcref.text,
                            memo :=
                              match findPath ["NtryDtls", "TxDtls", "RmtInf", "Ustrd"] ntry with
                              | some r => r.text
                              | none =>
                                match findPath ["AddtlNtryInf"] ntry with
                                | some a => a.text
                                | none => none })

/-- `Iso20022Parser._parse_lines` over the `Ntry` nodes in document order,
appending every non-`None` extraction result. -/
def parseLines (cur : Option String) : List XmlNode → Except PyErr (List StatementLine)
  | [] => .ok []
  | ntry :: rest =>
    match parseLine cur ntry with
    | .error e => .error e
    | .ok sl =>
      match parseLines cur rest with
      | .error e => .error e
      | .ok rs =>
        match sl with
        | none => .ok rs
        | some l => .ok (l :: rs)

/-! # Theorems -/

theorem splitCh_ne_nil (sep : Char) (cs : List Char) : splitCh sep cs ≠ [] := by
  induction cs with
  | nil => simp [splitCh]
  | cons c cs ih =>
    simp only [splitCh]
    split
    · simp
    · split
      · simp
      · simp

theorem splitCh_length (sep : Char) (cs : List Char) :
    (splitCh sep cs).length = cs.count sep + 1 := by
  induction cs with
  | nil => simp [splitCh]
  | cons c cs ih =>
    by_cases hc : c = sep
    · subst hc
      simp [splitCh, List.count_cons, ih]
    · cases heq : splitCh sep cs with
      | nil => exact absurd heq (splitCh_ne_nil sep cs)
      | cons h t =>
        rw [heq] at ih
        simp [splitCh, hc, heq, List.count_cons] at ih ⊢
        omega

theorem splitCh_of_not_mem (sep : Char) (cs : List Char) (h : sep ∉ cs) :
    splitCh sep cs = [cs] := by
  induction cs with
  | nil => rfl
  | cons c cs ih =>
    simp only [List.mem_cons, not_or] at h
    simp only [splitCh]
    rw [if_neg (fun hc => h.1 hc.symm), ih h.2]

theorem splitCh_append (sep : Char) (p o : List Char) (h : sep ∉ p) :
    splitCh sep (p ++ sep :: o) = p :: splitCh sep o := by
  induction p with
  | nil => simp [splitCh]
  | cons c cs ih =>
    simp only [List.mem_cons, not_or] at h
    simp only [List.cons_append, splitCh]
    rw [if_neg (fun hc => h.1 hc.symm)]
    simp only [List.append_eq]
    rw [ih h.2]

theorem string_toList_append (a b : String) : (a ++ b).toList = a.toList ++ b.toList := by
  cases a
  cases b
  rfl

/-- **C8** — Timezone-strip idempotence and prefix preservation: every
date/time text containing no `'+'` character is returned unchanged by
`_notimezone` (so applying it twice equals applying it once), and for a text
made of a `'+'`-free prefix followed by a single `+offset` suffix the result is
exactly that prefix. -/
theorem c8_notimezone_idempotent_and_strips :
    (∀ s : String, '+' ∉ s.toList →
      pyNotimezone s = .ok s ∧ (pyNotimezone s).bind pyNotimezone = pyNotimezone s) ∧
    (∀ p off : String, '+' ∉ p.toList → '+' ∉ off.toList →
      pyNotimezone (p ++ "+" ++ off) = .ok p) := by
  constructor
  · intro s h
    have h1 : pyNotimezone s = .ok s := by
      unfold pyNotimezone
      rw [if_neg h]
    refine ⟨h1, ?_⟩
    rw [h1]
    exact h1
  · intro p off hp hoff
    have hdata : (p ++ "+" ++ off).toList = p.toList ++ '+' :: off.toList := by
      rw [string_toList_append, string_toList_append]
      simp
    unfold pyNotimezone
    rw [hdata]
    rw [if_pos (by simp)]
    rw [splitCh_append _ _ _ hp, splitCh_of_not_mem _ _ hoff]
    rfl

theorem c8_witness :
    pyNotimezone "2017-04-01" = .ok "2017-04-01" ∧
    pyNotimezone ("2017-04-01" ++ "+" ++ "02:00") = .ok "2017-04-01" :=
  ⟨(c8_notimezone_idempotent_and_strips.1 "2017-04-01" (by decide)).1,
   c8_notimezone_idempotent_and_strips.2 "2017-04-01" "02:00" (by decide) (by decide)⟩

/-- **C10** — Timezone stripping is partial on multi-`'+'` text: with two or
more `'+'` characters the two-way unpacking of `split("+")` fails with a
`ValueError`; with at most one `'+'` the strip returns a value. -/
theorem unpack2_of_len_ne_two (l : List (List Char)) (h : l.length ≠ 2) :
    unpack2 l = .error .valueError := by
  match l with
  | [] => rfl
  | [_] => rfl
  | [_, _] => exact absurd rfl h
  | _ :: _ :: _ :: _ => rfl

theorem unpack2_of_len_two (l : List (List Char)) (h : l.length = 2) :
    ∃ r, unpack2 l = .ok r := by
  match l with
  | [] => simp at h
  | [_] => simp at h
  | [a, _] => exact ⟨String.mk a, rfl⟩
  | _ :: _ :: _ :: _ => simp at h

theorem c10_notimezone_partial_on_multi_plus :
    ∀ s : String,
      (2 ≤ s.toList.count '+' → pyNotimezone s = .error .valueError) ∧
      (s.toList.count '+' ≤ 1 → ∃ r, pyNotimezone s = .ok r) := by
  intro s
  have hlen := splitCh_length '+' s.toList
  constructor
  · intro h2
    have hmem : '+' ∈ s.toList := by
      by_contra hm
      rw [List.count_eq_zero_of_not_mem hm] at h2
      omega
    unfold pyNotimezone
    rw [if_pos hmem]
    exact unpack2_of_len_ne_two _ (by omega)
  · intro h1
    by_cases hmem : '+' ∈ s.toList
    · have hpos : s.toList.count '+' ≠ 0 := by
        intro h0
        exact (List.count_eq_zero.mp h0) hmem
      obtain ⟨r, hr⟩ := unpack2_of_len_two (splitCh '+' s.toList) (by omega)
      exact ⟨r, by unfold pyNotimezone; rw [if_pos hmem]; exact hr⟩
    · exact ⟨s, by unfold pyNotimezone; rw [if_neg hmem]⟩

theorem c10_witness :
    pyNotimezone "a+b+c" = .error .valueError ∧ ∃ r, pyNotimezone "a+b" = .ok r :=
  ⟨(c10_notimezone_partial_on_multi_plus "a+b+c").1 (by decide),
   (c10_notimezone_partial_on_multi_plus "a+b").2 (by decide)⟩

theorem unpack2_error (l : List (List Char)) (e : PyErr) (h : unpack2 l = .error e) :
    e = .valueError := by
  match l with
  | [] => injection h with h; exact h.symm
  | [_] => injection h with h; exact h.symm
  | [_, _] => exact Except.noConfusion h
  | _ :: _ :: _ :: _ => injection h with h; exact h.symm

theorem pyNotimezone_error (s : String) (e : PyErr) (h : pyNotimezone s = .error e) :
    e = .valueError := by
  unfold pyNotimezone at h
  split at h
  · exact unpack2_error _ _ h
  · exact Except.noConfusion h

theorem mkDate_error (y m d : List Char) (e : PyErr) (h : mkDate y m d = .error e) :
    e = .valueError := by
  unfold mkDate at h
  repeat split at h
  all_goals first
    | exact Except.noConfusion h
    | (injection h with h; exact h.symm)

theorem strptimeDate_error (s : String) (e : PyErr) (h : strptimeDate s = .error e) :
    e = .valueError := by
  unfold strptimeDate at h
  repeat split at h
  all_goals first
    | exact Except.noConfusion h
    | (injection h with h; exact h.symm)
    | (rename_i e' heq; injection h with h; rw [← h]; exact mkDate_error _ _ _ _ heq)

theorem strptimeDateTime_error (s : String) (e : PyErr) (h : strptimeDateTime s = .error e) :
    e = .valueError := by
  unfold strptimeDateTime at h
  repeat split at h
  all_goals first
    | exact Except.noConfusion h
    | (injection h with h; exact h.symm)

theorem pyTextNotimezone_error (t : Option String) (e : PyErr)
    (h : pyTextNotimezone t = .error e) : specIsFormatError e = true := by
  match t with
  | none =>
    injection h with h
    rw [← h]
    rfl
  | some s =>
    rw [pyNotimezone_error s e h]
    rfl

theorem dateChainD_error (t : Option String) (e : PyErr) (h : dateChainD t = .error e) :
    specIsFormatError e = true := by
  unfold dateChainD at h
  split at h
  · rename_i e' heq
    injection h with h
    rw [← h]
    exact pyTextNotimezone_error _ _ heq
  · rw [strptimeDate_error _ _ h]
    rfl

theorem dateChainT_error (t : Option String) (e : PyErr) (h : dateChainT t = .error e) :
    specIsFormatError e = true := by
  unfold dateChainT at h
  split at h
  · rename_i e' heq
    injection h with h
    rw [← h]
    exact pyTextNotimezone_error _ _ heq
  · rw [strptimeDateTime_error _ _ h]
    rfl

/-- **C6** — Date normalizer totality on absence: `_parse_date` returns an
absent result exactly when its input node is absent; with the node present it
prefers the `Dt` (date-only) child, ignoring `DtTm`; with neither child present
it fails with the spec's `FormatError` (the `assert`); and every failure it can
produce is classified as a `FormatError` (in particular the `ValueError` when
the text matches neither expected pattern). -/
theorem c6_parse_date_absence_and_failures :
    (∀ dtnode : Option XmlNode, pyParseDate dtnode = .ok none ↔ dtnode = none) ∧
    (∀ n dt, findPath ["Dt"] n = some dt →
      pyParseDate (some n) = (dateChainD dt.text).map some) ∧
    (∀ n, findPath ["Dt"] n = none → findPath ["DtTm"] n = none →
      pyParseDate (some n) = .error .assertionError ∧
        specIsFormatError .assertionError = true) ∧
    (∀ n (e : PyErr), pyParseDate (some n) = .error e → specIsFormatError e = true) := by
  refine ⟨?_, ?_, ?_, ?_⟩
  · intro dtnode
    cases dtnode with
    | none => simp [pyParseDate]
    | some n =>
      constructor
      · intro h
        exfalso
        simp only [pyParseDate] at h
        rcases h1 : findPath ["Dt"] n with _ | dt
        · simp only [h1] at h
          rcases h2 : findPath ["DtTm"] n with _ | dttm
          · simp [h2] at h
          · simp only [h2] at h
            rcases h3 : dateChainT dttm.text with e | v
            · simp [h3] at h
            · simp [h3] at h
        · simp only [h1] at h
          rcases h3 : dateChainD dt.text with e | v
          · simp [h3] at h
          · simp [h3] at h
      · intro h
        exact Option.noConfusion h
  · intro n dt hdt
    simp only [pyParseDate, hdt]
    cases hc : dateChainD dt.text <;> simp [Except.map]
  · intro n h1 h2
    refine ⟨?_, rfl⟩
    simp only [pyParseDate, h1, h2]
  · intro n e h
    simp only [pyParseDate] at h
    rcases h1 : findPath ["Dt"] n with _ | dt
    · simp only [h1] at h
      rcases h2 : findPath ["DtTm"] n with _ | dttm
      · simp only [h2] at h
        injection h with h
        rw [← h]
        rfl
      · simp only [h2] at h
        rcases h3 : dateChainT dttm.text with e' | v
        · simp only [h3] at h
          injection h with h
          rw [← h]
          exact dateChainT_error _ _ h3
        · simp [h3] at h
    · simp only [h1] at h
      rcases h3 : dateChainD dt.text with e' | v
      · simp only [h3] at h
        injection h with h
        rw [← h]
        exact dateChainD_error _ _ h3
      · simp [h3] at h

def dtNodeGood : XmlNode := .node "BookgDt" [] none [.node "Dt" [] (some "2017-04-01+02:00") []]

def dtNodeNeither : XmlNode := .node "BookgDt" [] none []

def dtNodeBad : XmlNode := .node "BookgDt" [] none [.node "Dt" [] (some "nonsense") []]

theorem c6_witness :
    pyParseDate (some dtNodeGood) = (dateChainD (some "2017-04-01+02:00")).map some ∧
    (pyParseDate (some dtNodeNeither) = .error .assertionError ∧
      specIsFormatError .assertionError = true) ∧
    specIsFormatError .valueError = true :=
  ⟨c6_parse_date_absence_and_failures.2.1 dtNodeGood
      (.node "Dt" [] (some "2017-04-01+02:00") []) rfl,
   c6_parse_date_absence_and_failures.2.2.1 dtNodeNeither rfl rfl,
   c6_parse_date_absence_and_failures.2.2.2 dtNodeBad .valueError rfl⟩

/-- The counterexample entry for C2: a debit-indicated entry whose amount text
is `"0"`.  (`float("0")` is `0.0`; negation keeps it `0.0`, which is not
negative.) -/
def entryDebitZero : XmlNode :=
  .node "Ntry" [] none
    [ .node "CdtDbtInd" [] (some "DBIT") []
    , .node "Amt" [("Ccy", "EUR")] (some "0") []
    , .node "AcctSvcrRef" [] (some "R1") []
    ]

/-- **C2, counterexample** — a debit-indicated entry is extracted with amount
`0`, which is not negative, so a debit entry does not always yield a negative
amount. -/
theorem c2_counterexample :
    parseLine (some "EUR") entryDebitZero =
      .ok (some { payee := none, amount := mkRat 0 1, date := none, date_user := none,
                  refnum := some "R1", memo := none }) ∧
    (findPath ["CdtDbtInd"] entryDebitZero).bind XmlNode.text = some "DBIT" ∧
    ¬ (mkRat 0 1 < 0) :=
  ⟨by decide, by decide, by norm_num [Rat.mkRat_eq_div]⟩

/-- **C2, amended** — Sign and payee selection, for entries whose amount text
parses to a strictly positive value: a debit-indicated extracted entry has a
negative amount and its payee is the creditor name from the transaction-detail
related parties; a credit-indicated one has a non-negative amount and its payee
is the debtor name; in both cases the payee is absent when the related-party
node is missing.  (The original claim fails only for a non-positive parsed
amount, e.g. amount text `"0"`: negation then does not make the amount
negative.) -/
theorem c2_amended_sign_and_payee :
    ∀ (cur : Option String) (ntry : XmlNode) (sl : StatementLine) (cn an : XmlNode) (a : Rat),
      findPath ["CdtDbtInd"] ntry = some cn →
      findPath ["Amt"] ntry = some an →
      pyParseAmount an = .ok a →
      0 < a →
      parseLine cur ntry = .ok (some sl) →
      ((cn.text = some "DBIT" →
          sl.amount < 0 ∧
          sl.payee = (findPath cdtrNmPath ntry).bind XmlNode.text ∧
          (findPath cdtrNmPath ntry = none → sl.payee = none)) ∧
       (cn.text = some "CRDT" →
          0 ≤ sl.amount ∧
          sl.payee = (findPath dbtrNmPath ntry).bind XmlNode.text ∧
          (findPath dbtrNmPath ntry = none → sl.payee = none))) := by
  intro cur ntry sl cn an a hcn han ha hpos hrun
  simp only [parseLine, hcn, han] at hrun
  split at hrun
  · simp at hrun
  · simp only [ha] at hrun
    rcases hv : pyParseDate (findPath ["ValDt"] ntry) with e | d
    · simp [hv] at hrun
    · simp only [hv] at hrun
      rcases hb : pyParseDate (findPath ["BookgDt"] ntry) with e | du
      · simp [hb] at hrun
      · simp only [hb] at hrun
        rcases hr : (match findPath txRefPath ntry with
                     | some r => some r
                     | none => findPath ["AcctSvcrRef"] ntry) with _ | r
        · simp [hr] at hrun
        · simp only [hr] at hrun
          injection hrun with hrun
          injection hrun with hrun
          subst hrun
          constructor
          · intro hdbit
            refine ⟨?_, ?_, ?_⟩
            · simp [hdbit]
              linarith
            · simp [hdbit]
            · intro hnone
              simp [hdbit, hnone]
          · intro hcrdt
            refine ⟨?_, ?_, ?_⟩
            · simp [hcrdt]
              linarith
            · simp [hcrdt]
            · intro hnone
              simp [hcrdt, hnone]

/-- A concrete positive debit entry used to witness the amended C2. -/
def entryDebitFive : XmlNode :=
  .node "Ntry" [] none
    [ .node "CdtDbtInd" [] (some "DBIT") []
    , .node "Amt" [("Ccy", "EUR")] (some "5.00") []
    , .node "AcctSvcrRef" [] (some "R2") []
    , .node "NtryDtls" [] none
        [ .node "TxDtls" [] none
            [ .node "RltdPties" [] none
                [ .node "Cdtr" [] none [.node "Nm" [] (some "ACME") []] ] ] ]
    ]

theorem c2_witness :
    ∃ sl : StatementLine,
      parseLine (some "EUR") entryDebitFive = .ok (some sl) ∧
      sl.amount < 0 ∧ sl.payee = some "ACME" := by
  refine ⟨{ payee := some "ACME", amount := mkRat (-5) 1, date := none, date_user := none,
            refnum := some "R2", memo := none }, by decide, ?_, rfl⟩
  have h := (c2_amended_sign_and_payee (some "EUR") entryDebitFive
      { payee := some "ACME", amount := mkRat (-5) 1, date := none, date_user := none,
        refnum := some "R2", memo := none }
      (.node "CdtDbtInd" [] (some "DBIT") [])
      (.node "Amt" [("Ccy", "EUR")] (some "5.00") []) (mkRat 5 1)
      rfl rfl (by decide) (by norm_num [Rat.mkRat_eq_div]) (by decide)).1 rfl
  exact h.1

/-- **C9** — Unknown credit/debit indicators default to credit semantics: an
extracted entry whose indicator text is present but not `"DBIT"` keeps the
parsed amount unnegated and resolves its payee from the debtor path, exactly
as a credit entry does. -/
theorem c9_non_dbit_defaults_to_credit :
    ∀ (cur : Option String) (ntry : XmlNode) (sl : StatementLine) (cn an : XmlNode)
      (c : String) (a : Rat),
      findPath ["CdtDbtInd"] ntry = some cn →
      cn.text = some c → c ≠ "DBIT" →
      findPath ["Amt"] ntry = some an →
      pyParseAmount an = .ok a →
      parseLine cur ntry = .ok (some sl) →
      sl.amount = a ∧ sl.payee = (findPath dbtrNmPath ntry).bind XmlNode.text := by
  intro cur ntry sl cn an c a hcn hct hc han ha hrun
  simp only [parseLine, hcn, han] at hrun
  split at hrun
  · simp at hrun
  · simp only [ha] at hrun
    rcases hv : pyParseDate (findPath ["ValDt"] ntry) with e | d
    · simp [hv] at hrun
    · simp only [hv] at hrun
      rcases hb : pyParseDate (findPath ["BookgDt"] ntry) with e | du
      · simp [hb] at hrun
      · simp only [hb] at hrun
        rcases hr : (match findPath txRefPath ntry with
                     | some r => some r
                     | none => findPath ["AcctSvcrRef"] ntry) with _ | r
        · simp [hr] at hrun
        · simp only [hr] at hrun
          injection hrun with hrun
          injection hrun with hrun
          subst hrun
          constructor
          · simp [hct, hc]
          · simp [hct, hc]

/-- A concrete entry with an off-spec indicator value used to witness C9. -/
def entryOddIndicator : XmlNode :=
  .node "Ntry" [] none
    [ .node "CdtDbtInd" [] (some "CRDX") []
    , .node "Amt" [("Ccy", "EUR")] (some "3.5") []
    , .node "AcctSvcrRef" [] (some "R3") []
    , .node "NtryDtls" [] none
        [ .node "TxDtls" [] none
            [ .node "RltdPties" [] none
                [ .node "Dbtr" [] none [.node "Nm" [] (some "Bob") []] ] ] ]
    ]

theorem c9_witness :
    ∃ sl : StatementLine,
      parseLine (some "EUR") entryOddIndicator = .ok (some sl) ∧
      sl.amount = mkRat 7 2 ∧ sl.payee = some "Bob" := by
  refine ⟨{ payee := some "Bob", amount := mkRat 7 2, date := none, date_user := none,
            refnum := some "R3", memo := none }, by decide, ?_⟩
  have h := c9_non_dbit_defaults_to_credit (some "EUR") entryOddIndicator
      { payee := some "Bob", amount := mkRat 7 2, date := none, date_user := none,
        refnum := some "R3", memo := none }
      (.node "CdtDbtInd" [] (some "CRDX") [])
      (.node "Amt" [("Ccy", "EUR")] (some "3.5") []) "CRDX" (mkRat 7 2)
      rfl rfl (by decide) rfl (by decide) (by decide)
  exact ⟨h.1, by rw [h.2]; decide⟩

/-- Inversion for a successful `_parse_line`: a produced line pins down every
field and forces every lookup/parse step to have succeeded. -/
theorem parseLine_ok_elim
    (cur : Option String) (ntry : XmlNode) (sl : StatementLine)
    (hrun : parseLine cur ntry = .ok (some sl)) :
    ∃ cn an a d du r,
      findPath ["CdtDbtInd"] ntry = some cn ∧
      findPath ["Amt"] ntry = some an ∧
      getAttr an "Ccy" = cur ∧
      pyParseAmount an = .ok a ∧
      pyParseDate (findPath ["ValDt"] ntry) = .ok d ∧
      pyParseDate (findPath ["BookgDt"] ntry) = .ok du ∧
      (match findPath txRefPath ntry with
       | some x => some x
       | none => findPath ["AcctSvcrRef"] ntry) = some r ∧
      sl = { payee := (if cn.text = some "DBIT" then findPath cdtrNmPath ntry
                       else findPath dbtrNmPath ntry).bind XmlNode.text,
             amount := if cn.text = some "DBIT" then -a else a,
             date := d, date_user := du, refnum := r.text,
             memo := match findPath ["NtryDtls", "TxDtls", "RmtInf", "Ustrd"] ntry with
                     | some x => x.text
                     | none => match findPath ["AddtlNtryInf"] ntry with
                               | some x => x.text
                               | none => none } := by
  rcases hcn : findPath ["CdtDbtInd"] ntry with _ | cn
  · simp [parseLine, hcn] at hrun
  · rcases han : findPath ["Amt"] ntry with _ | an
    · simp [parseLine, hcn, han] at hrun
    · simp only [parseLine, hcn, han] at hrun
      split at hrun
      · simp at hrun
      · rename_i hccy
        rcases ha : pyParseAmount an with e | a
        · simp [ha] at hrun
        · simp only [ha] at hrun
          rcases hd : pyParseDate (findPath ["ValDt"] ntry) with e | d
          · simp [hd] at hrun
          · simp only [hd] at hrun
            rcases hb : pyParseDate (findPath ["BookgDt"] ntry) with e | du
            · simp [hb] at hrun
            · simp only [hb] at hrun
              rcases hr : (match findPath txRefPath ntry with
                           | some x => some x
                           | none => findPath ["AcctSvcrRef"] ntry) with _ | r
              · simp [hr] at hrun
              · simp only [hr] at hrun
                injection hrun with hrun
                injection hrun with hrun
                exact ⟨cn, an, a, d, du, r, rfl, rfl, not_not.mp hccy, ha, rfl, rfl, hr,
                  hrun.symm⟩

/-- **C4** — Reference-number resolution: an extracted entry's `refnum` is the
transaction-detail service reference when that node exists, else the
entry-level one; with both locations absent no line is ever produced, and (all
earlier steps succeeding) the extraction fails with the `AttributeError` on
`svcref.text`, which the spec classifies as `FormatError`. -/
theorem c4_refnum_resolution :
    ∀ (cur : Option String) (ntry : XmlNode),
      (∀ sl r, parseLine cur ntry = .ok (some sl) → findPath txRefPath ntry = some r →
        sl.refnum = r.text) ∧
      (∀ sl r, parseLine cur ntry = .ok (some sl) → findPath txRefPath ntry = none →
        findPath ["AcctSvcrRef"] ntry = some r → sl.refnum = r.text) ∧
      (findPath txRefPath ntry = none → findPath ["AcctSvcrRef"] ntry = none →
        (∀ sl, parseLine cur ntry ≠ .ok (some sl)) ∧
        (∀ cn an a d du,
          findPath ["CdtDbtInd"] ntry = some cn →
          findPath ["Amt"] ntry = some an →
          getAttr an "Ccy" = cur →
          pyParseAmount an = .ok a →
          pyParseDate (findPath ["ValDt"] ntry) = .ok d →
          pyParseDate (findPath ["BookgDt"] ntry) = .ok du →
          parseLine cur ntry = .error .attributeError ∧
            specIsFormatError .attributeError = true)) := by
  intro cur ntry
  refine ⟨?_, ?_, ?_⟩
  · intro sl r hrun htd
    obtain ⟨cn, an, a, d, du, r', h1, h2, h3, h4, h5, h6, h7, hsl⟩ :=
      parseLine_ok_elim cur ntry sl hrun
    simp only [htd] at h7
    injection h7 with h7
    subst h7
    rw [hsl]
  · intro sl r hrun htd hacct
    obtain ⟨cn, an, a, d, du, r', h1, h2, h3, h4, h5, h6, h7, hsl⟩ :=
      parseLine_ok_elim cur ntry sl hrun
    simp only [htd, hacct] at h7
    injection h7 with h7
    subst h7
    rw [hsl]
  · intro htd hacct
    constructor
    · intro sl hrun
      obtain ⟨cn, an, a, d, du, r', h1, h2, h3, h4, h5, h6, h7, hsl⟩ :=
        parseLine_ok_elim cur ntry sl hrun
      simp [htd, hacct] at h7
    · intro cn an a d du hcn han hccy ha hd hb
      refine ⟨?_, rfl⟩
      simp only [parseLine, hcn, han]
      rw [if_neg (fun hne => hne hccy)]
      simp only [ha, hd, hb, htd, hacct]

/-- Concrete entries exercising the three branches of C4. -/
def entryBothRefs : XmlNode :=
  .node "Ntry" [] none
    [ .node "CdtDbtInd" [] (some "CRDT") []
    , .node "Amt" [("Ccy", "EUR")] (some "1.5") []
    , .node "AcctSvcrRef" [] (some "ENTRYREF") []
    , .node "NtryDtls" [] none
        [ .node "TxDtls" [] none
            [ .node "Refs" [] none [.node "AcctSvcrRef" [] (some "TDREF") []] ] ]
    ]

def entryEntryRefOnly : XmlNode :=
  .node "Ntry" [] none
    [ .node "CdtDbtInd" [] (some "CRDT") []
    , .node "Amt" [("Ccy", "EUR")] (some "1.5") []
    , .node "AcctSvcrRef" [] (some "ENTRYREF") []
    ]

def entryNoRefs : XmlNode :=
  .node "Ntry" [] none
    [ .node "CdtDbtInd" [] (some "CRDT") []
    , .node "Amt" [("Ccy", "EUR")] (some "1.5") []
    ]

theorem c4_witness :
    (∃ sl : StatementLine,
      parseLine (some "EUR") entryBothRefs = .ok (some sl) ∧ sl.refnum = some "TDREF") ∧
    (∃ sl : StatementLine,
      parseLine (some "EUR") entryEntryRefOnly = .ok (some sl) ∧
        sl.refnum = some "ENTRYREF") ∧
    parseLine (some "EUR") entryNoRefs = .error .attributeError := by
  refine ⟨⟨{ payee := none, amount := mkRat 3 2, date := none, date_user := none,
             refnum := some "TDREF", memo := none }, by decide, ?_⟩,
          ⟨{ payee := none, amount := mkRat 3 2, date := none, date_user := none,
             refnum := some "ENTRYREF", memo := none }, by decide, ?_⟩, ?_⟩
  · exact (c4_refnum_resolution (some "EUR") entryBothRefs).1
      { payee := none, amount := mkRat 3 2, date := none, date_user := none,
        refnum := some "TDREF", memo := none }
      (.node "AcctSvcrRef" [] (some "TDREF") []) (by decide) rfl
  · exact (c4_refnum_resolution (some "EUR") entryEntryRefOnly).2.1
      { payee := none, amount := mkRat 3 2, date := none, date_user := none,
        refnum := some "ENTRYREF", memo := none }
      (.node "AcctSvcrRef" [] (some "ENTRYREF") []) (by decide) rfl rfl
  · exact ((c4_refnum_resolution (some "EUR") entryNoRefs).2.2 rfl rfl).2
      (.node "CdtDbtInd" [] (some "CRDT") [])
      (.node "Amt" [("Ccy", "EUR")] (some "1.5") []) (mkRat 3 2) none none
      rfl rfl rfl (by decide) rfl rfl |>.1

/-- The counterexample entry for C5: its amount currency (`USD`) differs from
the statement currency (`EUR`), but it has no `CdtDbtInd` child.  The code
reads `self._find(ntry, 'CdtDbtInd').text` *before* the currency check, so the
entry raises `AttributeError` instead of being skipped. -/
def entryMismatchNoInd : XmlNode :=
  .node "Ntry" [] none [.node "Amt" [("Ccy", "USD")] (some "1.0") []]

/-- **C5, counterexample** — an entry whose amount currency differs from the
effective currency is *not* always skipped without error: with the
credit/debit indicator missing, extraction fails with `AttributeError`. -/
theorem c5_counterexample :
    parseLine (some "EUR") entryMismatchNoInd = .error .attributeError ∧
    parseLine (some "EUR") entryMismatchNoInd ≠ .ok none :=
  ⟨by decide, by decide⟩

/-- **C5, amended** — Cross-currency entry exclusion, for entries that have a
credit/debit indicator: if the amount node's currency attribute differs from
the statement's effective currency the extraction returns no result (not an
error); and whenever `_parse_lines` succeeds, the produced line sequence is
exactly the non-skipped extraction results in document order. -/
theorem c5_amended_cross_currency_skip :
    (∀ (cur : Option String) (ntry cn an : XmlNode),
      findPath ["CdtDbtInd"] ntry = some cn →
      findPath ["Amt"] ntry = some an →
      getAttr an "Ccy" ≠ cur →
      parseLine cur ntry = .ok none) ∧
    (∀ (cur : Option String) (entries : List XmlNode) (lines : List StatementLine),
      parseLines cur entries = .ok lines →
      lines = entries.filterMap (fun e =>
        match parseLine cur e with
        | .ok r => r
        | .error _ => none)) := by
  constructor
  · intro cur ntry cn an hcn han hccy
    simp only [parseLine, hcn, han]
    rw [if_pos hccy]
  · intro cur entries
    induction entries with
    | nil =>
      intro lines h
      simp only [parseLines] at h
      injection h with h
      rw [← h]
      rfl
    | cons n rest ih =>
      intro lines h
      simp only [parseLines] at h
      rcases h1 : parseLine cur n with e | sl
      · simp [h1] at h
      · simp only [h1] at h
        rcases h2 : parseLines cur rest with e | rs
        · simp [h2] at h
        · simp only [h2] at h
          have hrs := ih rs h2
          cases sl with
          | none =>
            injection h with h
            rw [← h]
            simp only [List.filterMap_cons, h1]
            exact hrs
          | some l =>
            injection h with h
            rw [← h]
            simp only [List.filterMap_cons, h1]
            rw [← hrs]

/-- A concrete skipped entry (indicator present, mismatched currency). -/
def entrySkip : XmlNode :=
  .node "Ntry" [] none
    [ .node "CdtDbtInd" [] (some "CRDT") []
    , .node "Amt" [("Ccy", "USD")] (some "1.0") []
    ]

theorem c5_witness :
    parseLine (some "EUR") entrySkip = .ok none ∧
    ∃ lines, parseLines (some "EUR") [entrySkip, entryDebitFive] = .ok lines ∧
      lines = [entrySkip, entryDebitFive].filterMap (fun e =>
        match parseLine (some "EUR") e with
        | .ok r => r
        | .error _ => none) := by
  refine ⟨c5_amended_cross_currency_skip.1 (some "EUR") entrySkip
      (.node "CdtDbtInd" [] (some "CRDT") [])
      (.node "Amt" [("Ccy", "USD")] (some "1.0") []) rfl rfl (by decide), ?_⟩
  refine ⟨[{ payee := some "ACME", amount := mkRat (-5) 1, date := none,
             date_user := none, refnum := some "R2", memo := none }], by decide, ?_⟩
  exact c5_amended_cross_currency_skip.2 (some "EUR") [entrySkip, entryDebitFive] _
    (by decide)

/-- Inversion for a successful `_parse_statement_properties`: success pins down
the resolved currency, a non-empty filtered balance dict containing both codes,
a present IBAN node, and every field of the produced statement. -/
theorem parseStmtProps_ok_elim (tree stmt : XmlNode) (cur0 : Option String) (st : Statement)
    (hstmt : findPath ["BkToCstmrStmt", "Stmt"] tree = some stmt)
    (hok : parseStatementProperties tree cur0 = .ok st) :
    ∃ cur amts dates iban sb sd eb ed,
      resolveCurrency ((findPath ["Acct", "Ccy"] stmt).bind XmlNode.text) cur0 = .ok cur ∧
      processBals cur (findallPath ["Bal"] stmt) [] [] = .ok (amts, dates) ∧
      amts ≠ [] ∧
      findPath ["Acct", "Id", "IBAN"] stmt = some iban ∧
      dictGet amts "OPBD" = .ok sb ∧
      dictGet dates "OPBD" = .ok sd ∧
      dictGet amts "CLBD" = .ok eb ∧
      dictGet dates "CLBD" = .ok ed ∧
      st = { currency := cur,
             bank_id := (match findPath ["Acct", "Svcr", "FinInstnId", "BIC"] stmt with
                         | some b => some b
                         | none =>
                           findPath ["Acct", "Svcr", "FinInstnId", "Nm"] stmt).bind XmlNode.text,
             account_id := iban.text, start_balance := sb, start_date := sd,
             end_balance := eb, end_date := ed } := by
  simp only [parseStatementProperties, hstmt] at hok
  rcases h1 : resolveCurrency ((findPath ["Acct", "Ccy"] stmt).bind XmlNode.text) cur0
    with e | cur
  · simp [h1] at hok
  · simp only [h1] at hok
    rcases h2 : processBals cur (findallPath ["Bal"] stmt) [] [] with e | pair
    · simp [h2] at hok
    · rcases pair with ⟨amts, dates⟩
      simp only [h2] at hok
      split at hok
      · simp at hok
      · rename_i hne
        rcases h3 : findPath ["Acct", "Id", "IBAN"] stmt with _ | iban
        · simp [h3] at hok
        · simp only [h3] at hok
          rcases h4 : dictGet amts "OPBD" with e | sb
          · simp [h4] at hok
          · simp only [h4] at hok
            rcases h5 : dictGet dates "OPBD" with e | sd
            · simp [h5] at hok
            · simp only [h5] at hok
              rcases h6 : dictGet amts "CLBD" with e | eb
              · simp [h6] at hok
              · simp only [h6] at hok
                rcases h7 : dictGet dates "CLBD" with e | ed
                · simp [h7] at hok
                · simp only [h7] at hok
                  injection hok with hok
                  exact ⟨cur, amts, dates, iban, sb, sd, eb, ed, rfl, h2, hne, rfl,
                    h4, h5, h6, h7, hok.symm⟩

/-- **C1** — Currency resolution: with the statement element present, a
non-empty account-level currency code becomes the record's currency verbatim
regardless of the caller-supplied default; with no (truthy) account-level
currency the record's currency is the caller-supplied default; and with
neither, `_parse_statement_properties` fails with the no-currency `ParseError`
(the spec's `ConfigError`, whose message reads "No account currency
provided ..."). -/
theorem c1_currency_resolution :
    ∀ (tree stmt : XmlNode) (cur0 : Option String),
      findPath ["BkToCstmrStmt", "Stmt"] tree = some stmt →
      ((∀ c, (findPath ["Acct", "Ccy"] stmt).bind XmlNode.text = some c → c ≠ "" →
         ∀ st, parseStatementProperties tree cur0 = .ok st → st.currency = some c) ∧
       (pyTruthy ((findPath ["Acct", "Ccy"] stmt).bind XmlNode.text) = false →
         ∀ st, parseStatementProperties tree cur0 = .ok st → st.currency = cur0) ∧
       (pyTruthy ((findPath ["Acct", "Ccy"] stmt).bind XmlNode.text) = false → cur0 = none →
         parseStatementProperties tree cur0 = .error (.parseError noCurrencyMsg))) := by
  intro tree stmt cur0 hstmt
  refine ⟨?_, ?_, ?_⟩
  · intro c hacct hc st hok
    obtain ⟨cur, amts, dates, iban, sb, sd, eb, ed, h1, _, _, _, _, _, _, _, hst⟩ :=
      parseStmtProps_ok_elim tree stmt cur0 st hstmt hok
    rw [hacct] at h1
    unfold resolveCurrency at h1
    rw [if_pos (by simp [pyTruthy, hc])] at h1
    injection h1 with h1
    rw [hst]
    exact h1.symm
  · intro hfalsy st hok
    obtain ⟨cur, amts, dates, iban, sb, sd, eb, ed, h1, _, _, _, _, _, _, _, hst⟩ :=
      parseStmtProps_ok_elim tree stmt cur0 st hstmt hok
    unfold resolveCurrency at h1
    rw [if_neg (by simp [hfalsy])] at h1
    split at h1
    · simp at h1
    · injection h1 with h1
      rw [hst]
      exact h1.symm
  · intro hfalsy hnone
    subst hnone
    simp only [parseStatementProperties, hstmt]
    have hres : resolveCurrency ((findPath ["Acct", "Ccy"] stmt).bind XmlNode.text) none =
        .error (.parseError noCurrencyMsg) := by
      unfold resolveCurrency
      rw [if_neg (by simp [hfalsy])]
      rw [if_pos rfl]
    rw [hres]

/-- A full statement document: account currency `EUR`, IBAN, BIC, and both
balance codes in `EUR`. -/
def stmtFull : XmlNode :=
  .node "Stmt" [] none
    [ .node "Acct" [] none
        [ .node "Id" [] none [.node "IBAN" [] (some "LT000000000000000000") []]
        , .node "Ccy" [] (some "EUR") []
        , .node "Svcr" [] none
            [.node "FinInstnId" [] none [.node "BIC" [] (some "AGBLLT2XXXX") []]]
        ]
    , .node "Bal" [] none
        [ .node "Tp" [] none [.node "CdOrPrtry" [] none [.node "Cd" [] (some "OPBD") []]]
        , .node "Amt" [("Ccy", "EUR")] (some "306.53") []
        , .node "Dt" [] none [.node "Dt" [] (some "2015-12-01") []]
        ]
    , .node "Bal" [] none
        [ .node "Tp" [] none [.node "CdOrPrtry" [] none [.node "Cd" [] (some "CLBD") []]]
        , .node "Amt" [("Ccy", "EUR")] (some "125.52") []
        , .node "Dt" [] none [.node "Dt" [] (some "2015-12-31") []]
        ]
    ]

def docFull : XmlNode :=
  .node "Document" [] none [.node "BkToCstmrStmt" [] none [stmtFull]]

/-- A statement document without an account-level currency; its balances carry
`USD` so that a caller default of `USD` reconciles. -/
def stmtNoCcy : XmlNode :=
  .node "Stmt" [] none
    [ .node "Acct" [] none [.node "Id" [] none [.node "IBAN" [] (some "X1") []]]
    , .node "Bal" [] none
        [ .node "Tp" [] none [.node "CdOrPrtry" [] none [.node "Cd" [] (some "OPBD") []]]
        , .node "Amt" [("Ccy", "USD")] (some "1.0") [] ]
    , .node "Bal" [] none
        [ .node "Tp" [] none [.node "CdOrPrtry" [] none [.node "Cd" [] (some "CLBD") []]]
        , .node "Amt" [("Ccy", "USD")] (some "2.0") [] ]
    ]

def docNoCcy : XmlNode :=
  .node "Document" [] none [.node "BkToCstmrStmt" [] none [stmtNoCcy]]

theorem c1_witness :
    (∃ st, parseStatementProperties docFull (some "USD") = .ok st ∧
       st.currency = some "EUR") ∧
    (∃ st, parseStatementProperties docNoCcy (some "USD") = .ok st ∧
       st.currency = some "USD") ∧
    parseStatementProperties docNoCcy none = .error (.parseError noCurrencyMsg) := by
  refine ⟨⟨{ currency := some "EUR", bank_id := some "AGBLLT2XXXX",
             account_id := some "LT000000000000000000",
             start_balance := mkRat 30653 100,
             start_date := some ⟨2015, 12, 1, 0, 0, 0⟩,
             end_balance := mkRat 12552 100,
             end_date := some ⟨2015, 12, 31, 0, 0, 0⟩ }, by decide, ?_⟩,
         ⟨{ currency := some "USD", bank_id := none, account_id := some "X1",
            start_balance := mkRat 1 1, start_date := none,
            end_balance := mkRat 2 1, end_date := none }, by decide, ?_⟩, ?_⟩
  · exact (c1_currency_resolution docFull stmtFull (some "USD") rfl).1 "EUR" rfl
      (by decide) _ (by decide)
  · exact (c1_currency_resolution docNoCcy stmtNoCcy (some "USD") rfl).2.1 (by decide) _
      (by decide)
  · exact (c1_currency_resolution docNoCcy stmtNoCcy none rfl).2.2 (by decide) rfl

theorem dictGet_ok {α : Type} (d : List (Option String × α)) (k : String) (v : α)
    (h : dictGet d k = .ok v) : d.lookup (some k) = some v := by
  unfold dictGet at h
  split at h
  · rename_i v' heq
    injection h with h
    rw [heq, h]
  · exact Except.noConfusion h

theorem dictGet_error {α : Type} (d : List (Option String × α)) (k : String) (e : PyErr)
    (h : dictGet d k = .error e) : e = .keyError k := by
  unfold dictGet at h
  split at h
  · exact Except.noConfusion h
  · injection h with h
    exact h.symm

/-- The counterexample statement for C3: only an opening (`OPBD`) balance
survives for the effective currency. -/
def stmtOnlyOPBD : XmlNode :=
  .node "Stmt" [] none
    [ .node "Acct" [] none
        [ .node "Id" [] none [.node "IBAN" [] (some "X2") []]
        , .node "Ccy" [] (some "EUR") [] ]
    , .node "Bal" [] none
        [ .node "Tp" [] none [.node "CdOrPrtry" [] none [.node "Cd" [] (some "OPBD") []]]
        , .node "Amt" [("Ccy", "EUR")] (some "1.0") [] ]
    ]

def docOnlyOPBD : XmlNode :=
  .node "Document" [] none [.node "BkToCstmrStmt" [] none [stmtOnlyOPBD]]

/-- **C3, counterexample** — with exactly one of the two balances surviving
(here only `OPBD`), the parse fails with `KeyError('CLBD')` from
`bal_amts['CLBD']`, not with the `ReconciliationError` (`ParseError`
"No statement balance found ...") the claim requires: `bal_amts` is non-empty,
so the dedicated raise is skipped. -/
theorem c3_counterexample :
    parseStatementProperties docOnlyOPBD none = .error (.keyError "CLBD") ∧
    ∀ c : Option String, (PyErr.keyError "CLBD") ≠ .parseError (noBalanceMsg c) :=
  ⟨by decide, fun _ h => PyErr.noConfusion h⟩

/-- **C3, amended** — Balance reconciliation failure: the `ReconciliationError`
(`ParseError` "No statement balance found ...") is raised exactly when *no*
balance at all survives the currency filter; when some balance survives but the
opening (resp. closing) code is missing, the parse instead fails with
`KeyError('OPBD')` (resp. `KeyError('CLBD')`); and in no case does a parse
succeed without both codes present — a missing balance is never defaulted to
zero. -/
theorem c3_amended_balance_failures :
    ∀ (tree stmt : XmlNode) (cur0 cur : Option String)
      (amts : List (Option String × Rat)) (dates : List (Option String × Option PyDateTime)),
      findPath ["BkToCstmrStmt", "Stmt"] tree = some stmt →
      resolveCurrency ((findPath ["Acct", "Ccy"] stmt).bind XmlNode.text) cur0 = .ok cur →
      processBals cur (findallPath ["Bal"] stmt) [] [] = .ok (amts, dates) →
      ((amts = [] →
          parseStatementProperties tree cur0 = .error (.parseError (noBalanceMsg cur))) ∧
       (∀ iban, amts ≠ [] → findPath ["Acct", "Id", "IBAN"] stmt = some iban →
         (amts.lookup (some "OPBD") = none →
            parseStatementProperties tree cur0 = .error (.keyError "OPBD")) ∧
         (∀ sb sd, amts.lookup (some "OPBD") = some sb →
            dates.lookup (some "OPBD") = some sd →
            amts.lookup (some "CLBD") = none →
            parseStatementProperties tree cur0 = .error (.keyError "CLBD"))) ∧
       (∀ st, parseStatementProperties tree cur0 = .ok st →
         amts.lookup (some "OPBD") ≠ none ∧ amts.lookup (some "CLBD") ≠ none)) := by
  intro tree stmt cur0 cur amts dates hstmt hres hpb
  refine ⟨?_, ?_, ?_⟩
  · intro hempty
    simp only [parseStatementProperties, hstmt, hres, hpb]
    rw [if_pos hempty]
  · intro iban hne hiban
    constructor
    · intro hlk
      simp only [parseStatementProperties, hstmt, hres, hpb]
      rw [if_neg hne]
      simp only [hiban, dictGet, hlk]
    · intro sb sd hsb hsd hclk
      simp only [parseStatementProperties, hstmt, hres, hpb]
      rw [if_neg hne]
      simp only [hiban, dictGet, hsb, hsd, hclk]
  · intro st hok
    obtain ⟨cur', amts', dates', iban, sb, sd, eb, ed, h1, h2, hne', h3,
      h4, h5, h6, h7, hst⟩ := parseStmtProps_ok_elim tree stmt cur0 st hstmt hok
    rw [hres] at h1
    injection h1 with h1
    subst h1
    rw [hpb] at h2
    injection h2 with h2
    injection h2 with h2a h2b
    subst h2a
    subst h2b
    rw [dictGet_ok _ _ _ h4, dictGet_ok _ _ _ h6]
    exact ⟨fun h => Option.noConfusion h, fun h => Option.noConfusion h⟩

theorem c3_witness :
    parseStatementProperties docOnlyOPBD none = .error (.keyError "CLBD") := by
  exact (((c3_amended_balance_failures docOnlyOPBD stmtOnlyOPBD none (some "EUR")
      [(some "OPBD", mkRat 1 1)] [(some "OPBD", none)]
      rfl (by decide) (by decide)).2.1
      (.node "IBAN" [] (some "X2") []) (by decide) rfl).2
      (mkRat 1 1) none (by decide) (by decide) (by decide))

/-- The counterexample statement for C7: the only balance carries the code
`ITBD` (neither `OPBD` nor `CLBD`) in the effective currency. -/
def stmtOnlyITBD : XmlNode :=
  .node "Stmt" [] none
    [ .node "Acct" [] none
        [ .node "Id" [] none [.node "IBAN" [] (some "X3") []]
        , .node "Ccy" [] (some "EUR") [] ]
    , .node "Bal" [] none
        [ .node "Tp" [] none [.node "CdOrPrtry" [] none [.node "Cd" [] (some "ITBD") []]]
        , .node "Amt" [("Ccy", "EUR")] (some "1.0") [] ]
    ]

def docOnlyITBD : XmlNode :=
  .node "Document" [] none [.node "BkToCstmrStmt" [] none [stmtOnlyITBD]]

/-- `stmtOnlyITBD` with its `ITBD` balance entry removed. -/
def stmtNoBals : XmlNode :=
  .node "Stmt" [] none
    [ .node "Acct" [] none
        [ .node "Id" [] none [.node "IBAN" [] (some "X3") []]
        , .node "Ccy" [] (some "EUR") [] ]
    ]

def docNoBals : XmlNode :=
  .node "Document" [] none [.node "BkToCstmrStmt" [] none [stmtNoBals]]

/-- **C7, counterexample** — a balance entry with a code other than
`OPBD`/`CLBD` is *not* without effect on the parse outcome: with a surviving
`ITBD` balance the parse fails with `KeyError('OPBD')`, while the identical
document without that entry fails with the no-balance-found `ParseError`.  So
such entries do change whether the no-balance-found failure fires. -/
theorem c7_counterexample :
    parseStatementProperties docOnlyITBD none = .error (.keyError "OPBD") ∧
    parseStatementProperties docNoBals none =
      .error (.parseError (noBalanceMsg (some "EUR"))) :=
  ⟨by decide, by decide⟩

/-- **C7, amended** — Balance-type code handling: on a successful parse only
the `OPBD` and `CLBD` entries of the filtered balance dicts populate the
opening/closing balance and date fields; but other codes are not inert — the
no-balance-found failure fires exactly when the filtered dict is empty, so any
surviving balance entry, of whatever code, suppresses it (the parse then fails
with a `KeyError` when `OPBD`/`CLBD` are missing). -/
theorem c7_amended_balance_codes :
    ∀ (tree stmt : XmlNode) (cur0 cur : Option String)
      (amts : List (Option String × Rat)) (dates : List (Option String × Option PyDateTime)),
      findPath ["BkToCstmrStmt", "Stmt"] tree = some stmt →
      resolveCurrency ((findPath ["Acct", "Ccy"] stmt).bind XmlNode.text) cur0 = .ok cur →
      processBals cur (findallPath ["Bal"] stmt) [] [] = .ok (amts, dates) →
      ((∀ st, parseStatementProperties tree cur0 = .ok st →
          amts.lookup (some "OPBD") = some st.start_balance ∧
          dates.lookup (some "OPBD") = some st.start_date ∧
          amts.lookup (some "CLBD") = some st.end_balance ∧
          dates.lookup (some "CLBD") = some st.end_date) ∧
       (parseStatementProperties tree cur0 = .error (.parseError (noBalanceMsg cur)) ↔
          amts = [])) := by
  intro tree stmt cur0 cur amts dates hstmt hres hpb
  constructor
  · intro st hok
    obtain ⟨cur', amts', dates', iban, sb, sd, eb, ed, h1, h2, hne', h3,
      h4, h5, h6, h7, hst⟩ := parseStmtProps_ok_elim tree stmt cur0 st hstmt hok
    rw [hres] at h1
    injection h1 with h1
    subst h1
    rw [hpb] at h2
    injection h2 with h2
    injection h2 with h2a h2b
    subst h2a
    subst h2b
    rw [dictGet_ok _ _ _ h4, dictGet_ok _ _ _ h5, dictGet_ok _ _ _ h6,
      dictGet_ok _ _ _ h7, hst]
    exact ⟨rfl, rfl, rfl, rfl⟩
  · constructor
    · intro h
      by_contra hne
      simp only [parseStatementProperties, hstmt, hres, hpb] at h
      rw [if_neg hne] at h
      rcases hiban : findPath ["Acct", "Id", "IBAN"] stmt with _ | iban
      · simp only [hiban] at h
        injection h with h
        exact PyErr.noConfusion h
      · simp only [hiban] at h
        rcases hg1 : dictGet amts "OPBD" with e | sb
        · simp only [hg1] at h
          injection h with h
          rw [dictGet_error _ _ _ hg1] at h
          exact PyErr.noConfusion h
        · simp only [hg1] at h
          rcases hg2 : dictGet dates "OPBD" with e | sd
          · simp only [hg2] at h
            injection h with h
            rw [dictGet_error _ _ _ hg2] at h
            exact PyErr.noConfusion h
          · simp only [hg2] at h
            rcases hg3 : dictGet amts "CLBD" with e | eb
            · simp only [hg3] at h
              injection h with h
              rw [dictGet_error _ _ _ hg3] at h
              exact PyErr.noConfusion h
            · simp only [hg3] at h
              rcases hg4 : dictGet dates "CLBD" with e | ed
              · simp only [hg4] at h
                injection h with h
                rw [dictGet_error _ _ _ hg4] at h
                exact PyErr.noConfusion h
              · simp only [hg4] at h
                exact Except.noConfusion h
    · intro hempty
      simp only [parseStatementProperties, hstmt, hres, hpb]
      rw [if_pos hempty]

theorem c7_witness :
    (∃ st, parseStatementProperties docFull (some "USD") = .ok st ∧
       [(some "OPBD", mkRat 30653 100), (some "CLBD", mkRat 12552 100)].lookup (some "OPBD")
         = some st.start_balance ∧
       [(some "OPBD", mkRat 30653 100), (some "CLBD", mkRat 12552 100)].lookup (some "CLBD")
         = some st.end_balance) ∧
    parseStatementProperties docNoBals none =
      .error (.parseError (noBalanceMsg (some "EUR"))) := by
  constructor
  · refine ⟨{ currency := some "EUR", bank_id := some "AGBLLT2XXXX",
              account_id := some "LT000000000000000000",
              start_balance := mkRat 30653 100,
              start_date := some ⟨2015, 12, 1, 0, 0, 0⟩,
              end_balance := mkRat 12552 100,
              end_date := some ⟨2015, 12, 31, 0, 0, 0⟩ }, by decide, ?_⟩
    have hmain := (c7_amended_balance_codes docFull stmtFull (some "USD") (some "EUR")
        [(some "OPBD", mkRat 30653 100), (some "CLBD", mkRat 12552 100)]
        [(some "OPBD", some ⟨2015, 12, 1, 0, 0, 0⟩), (some "CLBD", some ⟨2015, 12, 31, 0, 0, 0⟩)]
        rfl (by decide) (by decide)).1
        { currency := some "EUR", bank_id := some "AGBLLT2XXXX",
          account_id := some "LT000000000000000000",
          start_balance := mkRat 30653 100,
          start_date := some ⟨2015, 12, 1, 0, 0, 0⟩,
          end_balance := mkRat 12552 100,
          end_date := some ⟨2015, 12, 31, 0, 0, 0⟩ } (by decide)
    exact ⟨hmain.1, hmain.2.2.1⟩
  · exact (c7_amended_balance_codes docNoBals stmtNoBals none (some "EUR") [] []
      rfl (by decide) (by decide)).2.mpr rfl
